import Mathlib

/-!
Verification of the Care-Equity aggregation logic: the GET /ratings join,
the sentiment aggregator, the POST /reports validation (backend server.ts),
and the client-side disparity classifier, location filter and sort helpers
(Quality Ratings page).  JS numbers are modelled as exact rationals, JS
`undefined`/missing values as `Option`, and JS truthiness of strings and
numbers by explicit helpers.
-/

namespace CareEquity

/-- Hospital document (backend models/Hospital.ts): custom string `_id`,
name, city, state. -/
structure IHospital where
  _id : String
  name : String
  city : String
  state : String
deriving DecidableEq

/-- Per-demographic-group rating entry (models/CalculatedRating.ts IByGroup
values): numeric score and letter grade. -/
structure GroupRating where
  score : Rat
  grade : String
deriving DecidableEq

/-- byGroup object (models/CalculatedRating.ts IByGroup): the three optional
demographic-group fields. -/
structure IByGroup where
  Black : Option GroupRating
  White : Option GroupRating
  Hispanic : Option GroupRating
deriving DecidableEq

/-- The empty byGroup object `\x7b\x7d`. -/
def IByGroup.empty : IByGroup := ⟨none, none, none⟩

/-- `Object.keys(byGroup).length > 0` for the three-field byGroup object:
true when at least one group field is present. -/
def IByGroup.hasKeys (bg : IByGroup) : Bool :=
  bg.Black.isSome || bg.White.isSome || bg.Hispanic.isSome

/-- CalculatedRating document (models/CalculatedRating.ts); the
`updatedAt` timestamp is never read by the code under verification and is
omitted. -/
structure ICalculatedRating where
  hospitalId : String
  overallScore : Rat
  overallGrade : String
  equityGapScore : Rat
  byGroup : Option IByGroup
deriving DecidableEq

/-- JS `x || d` where `x` is a possibly-missing string: `undefined` and the
empty string are falsy and give the default. -/
def jsOrString (x : Option String) (d : String) : String :=
  match x with
  | some s => if s = "" then d else s
  | none => d

/-- JS `x || null` where `x` is a possibly-missing number: `undefined` and
`0` are falsy and give `null`. -/
def jsOrNull (x : Option Rat) : Option Rat :=
  match x with
  | some q => if q = 0 then none else some q
  | none => none

/-- Lookup in `new Map(ratings.map(r => [r.hospitalId, r]))`: the Map
constructor lets a later entry overwrite an earlier one with the same key,
so `get` returns the last record with the requested hospitalId. -/
def ratingMapGet (ratings : List ICalculatedRating) (id : String) :
    Option ICalculatedRating :=
  ratings.reverse.find? (fun r => r.hospitalId == id)

/-- One element of the `hospitalsWithRatings` array produced by the
GET /ratings handler (server.ts). -/
structure HospitalRating where
  hospitalId : String
  name : String
  city : String
  state : String
  location : String
  overallGrade : String
  overallScore : Option Rat
  equityGapScore : Option Rat
  byGroup : IByGroup
deriving DecidableEq

/-- Body of the `hospitals.map` in the GET /ratings handler: one joined
record for the given hospital.  The `byGroup` output field always carries
an object (the record byGroup when it is a non-empty object, otherwise the
empty object), mirroring the ternary in the source. -/
def joinOne (ratings : List ICalculatedRating) (hospital : IHospital) :
    HospitalRating :=
  let rating := ratingMapGet ratings hospital._id
  { hospitalId := hospital._id
    name := hospital.name
    city := hospital.city
    state := hospital.state
    location := hospital.city ++ ", " ++ hospital.state
    overallGrade := jsOrString (rating.map ICalculatedRating.overallGrade) "N/A"
    overallScore := jsOrNull (rating.map ICalculatedRating.overallScore)
    equityGapScore := jsOrNull (rating.map ICalculatedRating.equityGapScore)
    byGroup :=
      match rating with
      | some r =>
        match r.byGroup with
        | some bg => if bg.hasKeys then bg else IByGroup.empty
        | none => IByGroup.empty
      | none => IByGroup.empty }

/-- The GET /ratings join: one combined record per hospital. -/
def joinRatings (hospitals : List IHospital) (ratings : List ICalculatedRating) :
    List HospitalRating :=
  hospitals.map (joinOne ratings)

/-- PatientReport document (part of the unnamed model file): the fields
the aggregation logic reads.  The creation timestamp is never read by the
code under verification and is omitted. -/
structure IPatientReport where
  hospitalId : String
  rating : Rat
  comment : String
  race : String
  experienceType : String
  isAnonymous : Bool
deriving DecidableEq

/-- The data object returned by GET /hospitals/:id/sentiment, with the
ratingDistribution buckets 5..1 as separate fields. -/
structure SentimentData where
  sentiment : String
  summary : String
  averageRating : Rat
  totalReviews : Nat
  dist5 : Nat
  dist4 : Nat
  dist3 : Nat
  dist2 : Nat
  dist1 : Nat
deriving DecidableEq

/-- JS Math.round: round to the nearest integer, half toward positive
infinity. -/
def jsRound (x : Rat) : Int := Int.floor (x + 1 / 2)

/-- `reviews.reduce((sum, r) => sum + r.rating, 0) / reviews.length`, the
unrounded average used for classification. -/
def avgRating (reviews : List IPatientReport) : Rat :=
  (reviews.foldl (fun sum r => sum + r.rating) 0) / reviews.length

/-- The sentiment aggregation of the GET /hospitals/:id/sentiment handler
(server.ts), as a pure function of the review list fetched for the
hospital. -/
def computeSentiment (reviews : List IPatientReport) : SentimentData :=
  if reviews.length = 0 then
    { sentiment := "neutral", summary := "No reviews available yet.",
      averageRating := 0, totalReviews := 0,
      dist5 := 0, dist4 := 0, dist3 := 0, dist2 := 0, dist1 := 0 }
  else
    let averageRating := avgRating reviews
    let sentiment : String :=
      if 4 ≤ averageRating then "positive"
      else if 3 ≤ averageRating then "neutral"
      else "negative"
    let body : String :=
      if 9 / 2 ≤ averageRating then
        "Patients consistently report excellent experiences with high-quality care and positive interactions."
      else if 4 ≤ averageRating then
        "Patients generally report good experiences with mostly positive feedback about care quality."
      else if 3 ≤ averageRating then
        "Patients report mixed experiences with both positive and negative aspects noted."
      else if 2 ≤ averageRating then
        "Patients report concerns about care quality and overall experience."
      else
        "Patients report significant concerns and dissatisfaction with care quality."
    { sentiment := sentiment
      summary := body ++ " Based on " ++ toString reviews.length ++ " review"
        ++ (if reviews.length ≠ 1 then "s" else "") ++ "."
      averageRating := (jsRound (averageRating * 10) : Rat) / 10
      totalReviews := reviews.length
      dist5 := (reviews.filter (fun r => r.rating == 5)).length
      dist4 := (reviews.filter (fun r => r.rating == 4)).length
      dist3 := (reviews.filter (fun r => r.rating == 3)).length
      dist2 := (reviews.filter (fun r => r.rating == 2)).length
      dist1 := (reviews.filter (fun r => r.rating == 1)).length }

/-- A review with the given rating (comment and categories arbitrary but
valid). -/
def mkReview (rating : Rat) : IPatientReport :=
  { hospitalId := "HOSP_001", rating := rating,
    comment := "Staff were attentive", race := "Black",
    experienceType := "Compliment", isAnonymous := true }

/-- The review list of the concrete test vector, with ratings
[5, 5, 5, 4, 2]. -/
def fiveReviews : List IPatientReport :=
  [mkReview 5, mkReview 5, mkReview 5, mkReview 4, mkReview 2]

/-- The fixed race/ethnicity enumeration of the POST /reports handler. -/
def validRaces : List String :=
  ["Black", "White", "Hispanic", "Asian", "Native American",
   "Pacific Islander", "Other", "Prefer not to say"]

/-- The fixed experience-type enumeration of the POST /reports handler. -/
def validExperienceTypes : List String :=
  ["Compliment", "Complaint", "Suggestion", "General Feedback"]

/-- Request body of POST /reports: each field may be absent. -/
structure ReportBody where
  hospitalId : Option String
  rating : Option Rat
  comment : Option String
  race : Option String
  experienceType : Option String
deriving DecidableEq

/-- Outcome of the POST /reports handler: one rejection per early return,
or the constructed report document. -/
inductive ReportOutcome where
  | missingFields
  | invalidRating
  | invalidComment
  | invalidRace
  | invalidExperienceType
  | hospitalNotFound
  | created (report : IPatientReport)
deriving DecidableEq

/-- Removal of leading whitespace from a character list. -/
def dropLeadWs : List Char → List Char
  | [] => []
  | c :: cs => if c.isWhitespace then dropLeadWs cs else c :: cs

/-- JS String.prototype.trim: strip whitespace from both ends, modelled
structurally on the character list underlying the string. -/
def jsTrim (s : String) : String :=
  String.mk ((dropLeadWs ((dropLeadWs s.data).reverse)).reverse)

/-- JS truthiness of a possibly-missing string. -/
def truthyStr : Option String → Bool
  | some s => s ≠ ""
  | none => false

/-- JS truthiness of a possibly-missing number. -/
def truthyNum : Option Rat → Bool
  | some q => q ≠ 0
  | none => false

/-- The validation chain of the POST /reports handler (server.ts), in
source order: the combined falsiness guard, the range check on rating (a
number comparison only, there is no integrality check in the handler or
the schema), the trimmed-empty comment check, the two enumeration checks,
the hospital existence check, and finally construction of the report with
the trimmed comment and isAnonymous set. -/
def postReport (hospitals : List IHospital) (b : ReportBody) : ReportOutcome :=
  if ¬ (truthyStr b.hospitalId && truthyNum b.rating && truthyStr b.comment
        && truthyStr b.race && truthyStr b.experienceType) then
    ReportOutcome.missingFields
  else
    let hospitalId := b.hospitalId.getD ""
    let rating := b.rating.getD 0
    let comment := b.comment.getD ""
    let race := b.race.getD ""
    let experienceType := b.experienceType.getD ""
    if rating < 1 ∨ 5 < rating then ReportOutcome.invalidRating
    else if jsTrim comment = "" then ReportOutcome.invalidComment
    else if ¬ race ∈ validRaces then ReportOutcome.invalidRace
    else if ¬ experienceType ∈ validExperienceTypes then
      ReportOutcome.invalidExperienceType
    else if ¬ hospitals.any (fun h => h._id == hospitalId) then
      ReportOutcome.hospitalNotFound
    else
      ReportOutcome.created
        { hospitalId := hospitalId, rating := rating, comment := jsTrim comment,
          race := race, experienceType := experienceType, isAnonymous := true }

/-- The rational 7/2 given by its normal form, so that it reduces in the
kernel without invoking rational normalization. -/
def sevenHalves : Rat :=
  { num := 7, den := 2, den_nz := by norm_num,
    reduced := by norm_num [Nat.Coprime] }

/-- A syntactically valid body whose rating is the non-integer 7/2. -/
def nonIntegerBody : ReportBody :=
  { hospitalId := some "HOSP_001", rating := some sevenHalves,
    comment := some "Staff were attentive", race := some "Black",
    experienceType := some "Compliment" }

/-- A body with an out-of-range rating, used to instantiate the amended
claim. -/
def highRatingBody : ReportBody :=
  { hospitalId := some "HOSP_001", rating := some 6,
    comment := some "Staff were attentive", race := some "Black",
    experienceType := some "Compliment" }

/-- An arbitrary report document, used to instantiate the amended claim. -/
def sampleReport : IPatientReport :=
  { hospitalId := "HOSP_001", rating := 6, comment := "Staff were attentive",
    race := "Black", experienceType := "Compliment", isAnonymous := true }

/-- Sample hospital matching the seeded shape. -/
def hospA : IHospital := ⟨"HOSP_001", "City General Hospital", "New York", "NY"⟩

/-- A rating record whose overall score and equity-gap score are the
legitimate value 0. -/
def ratingZero : ICalculatedRating :=
  { hospitalId := "HOSP_001", overallScore := 0, overallGrade := "B",
    equityGapScore := 0, byGroup := none }

/-- gradeToNum of the Quality Ratings page disparity helper: the object
lookup A to 4, B to 3, C to 2, D to 1, with the `|| 0` fallback for every
other string. -/
def gradeToNum (g : String) : Nat :=
  if g = "A" then 4 else if g = "B" then 3
  else if g = "C" then 2 else if g = "D" then 1 else 0

/-- hasSignificantDisparity of the Quality Ratings page: read the Black and
White grades off the joined record through optional chaining, return false
when either is absent, empty or "N/A", otherwise compare the grade
ordinals and report a significant disparity exactly when they differ by at
least 2 in absolute value. -/
def hasSignificantDisparity (r : HospitalRating) : Bool :=
  let blackGrade := r.byGroup.Black.map GroupRating.grade
  let whiteGrade := r.byGroup.White.map GroupRating.grade
  if !truthyStr blackGrade || !truthyStr whiteGrade
      || blackGrade == some "N/A" || whiteGrade == some "N/A" then false
  else
    decide (2 ≤ ((gradeToNum (blackGrade.getD "") : Int)
      - (gradeToNum (whiteGrade.getD "") : Int)).natAbs)

/-- A joined record with the given optional Black and White grades. -/
def mkGraded (b w : Option String) : HospitalRating :=
  { hospitalId := "HOSP_010", name := "Sample Hospital", city := "Austin",
    state := "TX", location := "Austin, TX", overallGrade := "B",
    overallScore := some 80, equityGapScore := some 10,
    byGroup := { Black := b.map (fun g => { score := 75, grade := g }),
                 White := w.map (fun g => { score := 85, grade := g }),
                 Hispanic := none } }

/-- The location filter of the Quality Ratings page: keep exactly the
records whose location string equals the selected location. -/
def filterByLocation (rs : List HospitalRating) (loc : String) :
    List HospitalRating :=
  rs.filter (fun r => r.location == loc)

/-- A hospital whose city itself contains the location separator. -/
def hospComma1 : IHospital :=
  ⟨"HOSP_101", "North Clinic", "Springfield, North", "VA"⟩

/-- A different hospital whose composed location collides with the one
above. -/
def hospComma2 : IHospital :=
  ⟨"HOSP_102", "South Clinic", "Springfield", "North, VA"⟩

/-- gradeOrder of the sort-by-Black-grade comparator, with the `|| 99`
fallback for grades outside the table. -/
def blackGradeOrder (g : String) : Nat :=
  if g = "A" then 1 else if g = "B" then 2 else if g = "C" then 3
  else if g = "D" then 4 else if g = "N/A" then 5 else if g = "Z" then 6
  else 99

/-- Sort key of the Black-grade comparator: `a.byGroup?.Black?.grade || Z`
looked up in its gradeOrder table. -/
def blackSortKey (r : HospitalRating) : Nat :=
  blackGradeOrder (jsOrString (r.byGroup.Black.map GroupRating.grade) "Z")

/-- gradeOrder of the sort-by-overall-grade comparator (no Z entry), with
the `|| 99` fallback. -/
def overallGradeOrder (g : String) : Nat :=
  if g = "A" then 1 else if g = "B" then 2 else if g = "C" then 3
  else if g = "D" then 4 else if g = "N/A" then 5 else 99

/-- Sort key of the overall-grade comparator: `a.overallGrade || N/A`
looked up in its gradeOrder table. -/
def overallSortKey (r : HospitalRating) : Nat :=
  overallGradeOrder (jsOrString (some r.overallGrade) "N/A")

/-- Key of the disparity-first comparator `bHas - aHas`: records with a
significant disparity (key 0) come before the others (key 1). -/
def dispSortKey (r : HospitalRating) : Nat :=
  if hasSignificantDisparity r then 0 else 1

/-- ES2019 Array.prototype.sort is specified stable; with an ascending
numeric-key comparator it is a stable sort on the key, modelled by
insertion sort. -/
def sortByKey {α : Type} (key : α → Nat) (l : List α) : List α :=
  List.insertionSort (fun a b => key a ≤ key b) l

/-- The sortBy black branch of the Quality Ratings page. -/
def sortByBlackGrade : List HospitalRating → List HospitalRating :=
  sortByKey blackSortKey

/-- The sortBy overall branch of the Quality Ratings page. -/
def sortByOverallGrade : List HospitalRating → List HospitalRating :=
  sortByKey overallSortKey

/-- The sortBy disparity branch of the Quality Ratings page. -/
def sortByDisparity : List HospitalRating → List HospitalRating :=
  sortByKey dispSortKey

end CareEquity

namespace CareEquity

/-- C1: for every list of hospitals H and every list of rating records R,
the GET /ratings join produces exactly one output record per hospital of H,
in order, so its length equals the length of H regardless of R. -/
theorem joinRatings_one_per_hospital (H : List IHospital)
    (R : List ICalculatedRating) :
    (joinRatings H R).length = H.length ∧
      List.map HospitalRating.hospitalId (joinRatings H R) =
        List.map IHospital._id H := by
  refine ⟨List.length_map _ _, ?_⟩
  simp [joinRatings, List.map_map]
  intro a _
  rfl

/-- C2 counterexample: a hospital whose rating record carries the
legitimate score 0 (overall and equity-gap) comes out of the join with
`overallScore = null` and `equityGapScore = null`, not with the record
values, because the handler defaults through the JS `||` operator and 0 is
falsy.  This refutes the claim that a score of 0 is preserved. -/
theorem join_zero_score_dropped :
    ratingZero.hospitalId = hospA._id ∧
    ratingZero.overallScore = 0 ∧
    ratingZero.equityGapScore = 0 ∧
    List.map HospitalRating.overallScore (joinRatings [hospA] [ratingZero]) = [none] ∧
    List.map HospitalRating.equityGapScore (joinRatings [hospA] [ratingZero]) = [none] := by
  refine ⟨rfl, rfl, rfl, ?_, ?_⟩ <;> rfl

/-- C2 (amended): every hospital of H yields a joined record whose rating
fields are the matching record values defaulted through JS `||`: with a
matching record, an empty overall grade becomes "N/A" and a score equal to
0 (overall or equity-gap) becomes null, while any other value is kept;
with no matching record the defaults are "N/A", null, null; and the
byGroup output is always an object: the record byGroup when it is a
non-empty object, otherwise the empty object. -/
theorem joinRatings_field_defaults (H : List IHospital)
    (R : List ICalculatedRating) (h : IHospital) (hmem : h ∈ H) :
    ∃ j ∈ joinRatings H R,
      j.hospitalId = h._id ∧
      (match ratingMapGet R h._id with
       | none =>
          j.overallGrade = "N/A" ∧ j.overallScore = none ∧
          j.equityGapScore = none ∧ j.byGroup = IByGroup.empty
       | some r =>
          j.overallGrade = (if r.overallGrade = "" then "N/A" else r.overallGrade) ∧
          j.overallScore = (if r.overallScore = 0 then none else some r.overallScore) ∧
          j.equityGapScore = (if r.equityGapScore = 0 then none else some r.equityGapScore) ∧
          j.byGroup = (match r.byGroup with
                       | some bg => if bg.hasKeys then bg else IByGroup.empty
                       | none => IByGroup.empty)) := by
  refine ⟨joinOne R h, List.mem_map_of_mem _ hmem, rfl, ?_⟩
  cases hr : ratingMapGet R h._id with
  | none => simp [joinOne, hr, jsOrString, jsOrNull]
  | some r => simp [joinOne, hr, jsOrString, jsOrNull]

/-- C2 witness: the amended field description evaluated on the concrete
one-hospital, one-zero-score-record input. -/
theorem joinRatings_field_defaults_witness :
    ∃ j ∈ joinRatings [hospA] [ratingZero],
      j.hospitalId = hospA._id ∧
      (match ratingMapGet [ratingZero] hospA._id with
       | none =>
          j.overallGrade = "N/A" ∧ j.overallScore = none ∧
          j.equityGapScore = none ∧ j.byGroup = IByGroup.empty
       | some r =>
          j.overallGrade = (if r.overallGrade = "" then "N/A" else r.overallGrade) ∧
          j.overallScore = (if r.overallScore = 0 then none else some r.overallScore) ∧
          j.equityGapScore = (if r.equityGapScore = 0 then none else some r.equityGapScore) ∧
          j.byGroup = (match r.byGroup with
                       | some bg => if bg.hasKeys then bg else IByGroup.empty
                       | none => IByGroup.empty)) :=
  joinRatings_field_defaults [hospA] [ratingZero] hospA (by simp)

/-- Unfolding of the non-empty branch of the sentiment aggregator. -/
theorem computeSentiment_ne (reviews : List IPatientReport)
    (h : ¬ reviews.length = 0) :
    computeSentiment reviews =
      { sentiment :=
          if 4 ≤ avgRating reviews then "positive"
          else if 3 ≤ avgRating reviews then "neutral" else "negative"
        summary :=
          (if 9 / 2 ≤ avgRating reviews then
            "Patients consistently report excellent experiences with high-quality care and positive interactions."
          else if 4 ≤ avgRating reviews then
            "Patients generally report good experiences with mostly positive feedback about care quality."
          else if 3 ≤ avgRating reviews then
            "Patients report mixed experiences with both positive and negative aspects noted."
          else if 2 ≤ avgRating reviews then
            "Patients report concerns about care quality and overall experience."
          else
            "Patients report significant concerns and dissatisfaction with care quality.")
          ++ " Based on " ++ toString reviews.length ++ " review"
          ++ (if reviews.length ≠ 1 then "s" else "") ++ "."
        averageRating := (jsRound (avgRating reviews * 10) : Rat) / 10
        totalReviews := reviews.length
        dist5 := (reviews.filter (fun r => r.rating == 5)).length
        dist4 := (reviews.filter (fun r => r.rating == 4)).length
        dist3 := (reviews.filter (fun r => r.rating == 3)).length
        dist2 := (reviews.filter (fun r => r.rating == 2)).length
        dist1 := (reviews.filter (fun r => r.rating == 1)).length } := by
  unfold computeSentiment
  rw [if_neg h]

/-- The foldl in the handler sums exactly the mapped-out ratings. -/
theorem avgRating_eq_mean (reviews : List IPatientReport) :
    avgRating reviews =
      (reviews.map IPatientReport.rating).sum / reviews.length := by
  unfold avgRating
  rw [List.sum_eq_foldl, List.foldl_map]

/-- Each distribution bucket counts the reviews at one star value. -/
theorem filter_rating_count (reviews : List IPatientReport) (q : Rat) :
    (reviews.filter (fun r => r.rating == q)).length =
      (reviews.map IPatientReport.rating).count q := by
  rw [List.count, List.countP_map, ← List.countP_eq_length_filter]
  rfl

/-- C3: an empty review list yields the defined neutral terminal result:
sentiment neutral, the no-reviews summary, averageRating 0, totalReviews 0
and a zero histogram in every bucket, as a successful value of the total
aggregation function (no division by zero occurs). -/
theorem computeSentiment_empty :
    computeSentiment [] =
      { sentiment := "neutral", summary := "No reviews available yet.",
        averageRating := 0, totalReviews := 0,
        dist5 := 0, dist4 := 0, dist3 := 0, dist2 := 0, dist1 := 0 } := rfl

/-- C4: for a non-empty review list the label is a threshold function of
the unrounded average rating: at least 4 gives positive, at least 3 and
below 4 gives neutral, below 3 gives negative, thresholds inclusive on the
lower bound. -/
theorem computeSentiment_label (reviews : List IPatientReport)
    (hne : reviews ≠ []) :
    (4 ≤ avgRating reviews → (computeSentiment reviews).sentiment = "positive") ∧
    (3 ≤ avgRating reviews ∧ avgRating reviews < 4 →
      (computeSentiment reviews).sentiment = "neutral") ∧
    (avgRating reviews < 3 → (computeSentiment reviews).sentiment = "negative") := by
  have hlen : ¬ reviews.length = 0 := by
    simpa [List.length_eq_zero] using hne
  rw [computeSentiment_ne reviews hlen]
  refine ⟨fun h => ?_, fun h => ?_, fun h => ?_⟩
  · show (if 4 ≤ avgRating reviews then "positive"
      else if 3 ≤ avgRating reviews then "neutral" else "negative") = "positive"
    rw [if_pos h]
  · show (if 4 ≤ avgRating reviews then "positive"
      else if 3 ≤ avgRating reviews then "neutral" else "negative") = "neutral"
    rw [if_neg (by linarith [h.2]), if_pos h.1]
  · show (if 4 ≤ avgRating reviews then "positive"
      else if 3 ≤ avgRating reviews then "neutral" else "negative") = "negative"
    rw [if_neg (by linarith), if_neg (by linarith)]

/-- C4 witness: a single five-star review has average 5 and is labelled
positive. -/
theorem computeSentiment_label_witness :
    (computeSentiment [mkReview 5]).sentiment = "positive" :=
  (computeSentiment_label [mkReview 5] (by simp)).1
    (by norm_num [avgRating, mkReview])

/-- C7: for every non-empty review list the returned averageRating is the
arithmetic mean of the ratings rounded to one decimal place (Math.round
half-up on ten times the mean), totalReviews is the number of reviews and
each distribution bucket counts the reviews at its star value; on the
concrete ratings [5, 5, 5, 4, 2] this gives average 4.2, label positive,
distribution (3, 1, 0, 1, 0) for stars (5, 4, 3, 2, 1) and five total
reviews. -/
theorem computeSentiment_stats (reviews : List IPatientReport)
    (hne : reviews ≠ []) :
    ((computeSentiment reviews).averageRating =
        (jsRound (((reviews.map IPatientReport.rating).sum / reviews.length) * 10) : Rat) / 10 ∧
      (computeSentiment reviews).totalReviews = reviews.length ∧
      (computeSentiment reviews).dist5 = (reviews.map IPatientReport.rating).count 5 ∧
      (computeSentiment reviews).dist4 = (reviews.map IPatientReport.rating).count 4 ∧
      (computeSentiment reviews).dist3 = (reviews.map IPatientReport.rating).count 3 ∧
      (computeSentiment reviews).dist2 = (reviews.map IPatientReport.rating).count 2 ∧
      (computeSentiment reviews).dist1 = (reviews.map IPatientReport.rating).count 1) ∧
    ((computeSentiment fiveReviews).averageRating = 21 / 5 ∧
      (computeSentiment fiveReviews).sentiment = "positive" ∧
      (computeSentiment fiveReviews).totalReviews = 5 ∧
      (computeSentiment fiveReviews).dist5 = 3 ∧
      (computeSentiment fiveReviews).dist4 = 1 ∧
      (computeSentiment fiveReviews).dist3 = 0 ∧
      (computeSentiment fiveReviews).dist2 = 1 ∧
      (computeSentiment fiveReviews).dist1 = 0) := by
  have hlen : ¬ reviews.length = 0 := by
    simpa [List.length_eq_zero] using hne
  constructor
  · rw [computeSentiment_ne reviews hlen, ← avgRating_eq_mean]
    refine ⟨rfl, rfl, ?_, ?_, ?_, ?_, ?_⟩ <;>
      exact filter_rating_count reviews _
  · have h5 : ¬ (fiveReviews).length = 0 := by norm_num [fiveReviews]
    have havg : avgRating fiveReviews = 21 / 5 := by
      norm_num [avgRating, fiveReviews, mkReview]
    rw [computeSentiment_ne fiveReviews h5]
    refine ⟨?_, ?_, ?_, ?_, ?_, ?_, ?_, ?_⟩
    · show (jsRound (avgRating fiveReviews * 10) : Rat) / 10 = 21 / 5
      rw [havg]
      norm_num [jsRound]
    · show (if 4 ≤ avgRating fiveReviews then "positive"
        else if 3 ≤ avgRating fiveReviews then "neutral" else "negative") = "positive"
      rw [if_pos (by rw [havg]; norm_num)]
    · norm_num [fiveReviews]
    all_goals norm_num [fiveReviews, mkReview]

/-- C7 witness: the general statement applied to the concrete five-review
list. -/
theorem computeSentiment_stats_witness :
    (computeSentiment fiveReviews).totalReviews = fiveReviews.length ∧
      (computeSentiment fiveReviews).averageRating = 21 / 5 :=
  ⟨(computeSentiment_stats fiveReviews (by simp [fiveReviews])).1.2.1,
    (computeSentiment_stats fiveReviews (by simp [fiveReviews])).2.1⟩

/-- C8: for every non-empty review list the summary is the canned sentence
of the band its average falls in (bands at 4.5, 4, 3, 2 and below), with
an appended clause stating the review count, singular for exactly one
review and plural otherwise. -/
theorem computeSentiment_summary_bands (reviews : List IPatientReport)
    (hne : reviews ≠ []) :
    (9 / 2 ≤ avgRating reviews →
      (computeSentiment reviews).summary =
        "Patients consistently report excellent experiences with high-quality care and positive interactions."
          ++ " Based on " ++ toString reviews.length ++ " review"
          ++ (if reviews.length = 1 then "" else "s") ++ ".") ∧
    (4 ≤ avgRating reviews ∧ avgRating reviews < 9 / 2 →
      (computeSentiment reviews).summary =
        "Patients generally report good experiences with mostly positive feedback about care quality."
          ++ " Based on " ++ toString reviews.length ++ " review"
          ++ (if reviews.length = 1 then "" else "s") ++ ".") ∧
    (3 ≤ avgRating reviews ∧ avgRating reviews < 4 →
      (computeSentiment reviews).summary =
        "Patients report mixed experiences with both positive and negative aspects noted."
          ++ " Based on " ++ toString reviews.length ++ " review"
          ++ (if reviews.length = 1 then "" else "s") ++ ".") ∧
    (2 ≤ avgRating reviews ∧ avgRating reviews < 3 →
      (computeSentiment reviews).summary =
        "Patients report concerns about care quality and overall experience."
          ++ " Based on " ++ toString reviews.length ++ " review"
          ++ (if reviews.length = 1 then "" else "s") ++ ".") ∧
    (avgRating reviews < 2 →
      (computeSentiment reviews).summary =
        "Patients report significant concerns and dissatisfaction with care quality."
          ++ " Based on " ++ toString reviews.length ++ " review"
          ++ (if reviews.length = 1 then "" else "s") ++ ".") := by
  have hlen : ¬ reviews.length = 0 := by
    simpa [List.length_eq_zero] using hne
  rw [computeSentiment_ne reviews hlen]
  simp only [ne_eq, ite_not]
  refine ⟨fun h => ?_, fun h => ?_, fun h => ?_, fun h => ?_, fun h => ?_⟩
  · rw [if_pos h]
  · rw [if_neg (by linarith [h.2]), if_pos h.1]
  · rw [if_neg (by linarith [h.2]), if_neg (by linarith [h.2]), if_pos h.1]
  · rw [if_neg (by linarith [h.2]), if_neg (by linarith [h.2]),
      if_neg (by linarith [h.2]), if_pos h.1]
  · rw [if_neg (by linarith), if_neg (by linarith), if_neg (by linarith),
      if_neg (by linarith)]

/-- C8 witness: one five-star review falls in the top band and gets the
singular count clause. -/
theorem computeSentiment_summary_bands_witness :
    (computeSentiment [mkReview 5]).summary =
      "Patients consistently report excellent experiences with high-quality care and positive interactions."
        ++ " Based on " ++ toString (List.length [mkReview 5]) ++ " review"
        ++ (if List.length [mkReview 5] = 1 then "" else "s") ++ "." :=
  (computeSentiment_summary_bands [mkReview 5] (by simp)).1
    (by norm_num [avgRating, mkReview])

/-- A truthy optional string is present and non-empty. -/
theorem truthyStr_spec {x : Option String} (h : truthyStr x = true) :
    x = some (x.getD "") ∧ x.getD "" ≠ "" := by
  cases x with
  | none => simp [truthyStr] at h
  | some s => simpa [truthyStr] using h

/-- A truthy optional number is present and non-zero. -/
theorem truthyNum_spec {x : Option Rat} (h : truthyNum x = true) :
    x = some (x.getD 0) ∧ x.getD 0 ≠ 0 := by
  cases x with
  | none => simp [truthyNum] at h
  | some q => simpa [truthyNum] using h

/-- Everything the handler guarantees about a report it actually creates:
the submitted fields are present, the stored rating is the submitted number
and lies in [1, 5], the stored comment is the trimmed submitted comment and
is non-empty, the categories are from the fixed enumerations, and the
hospital exists. -/
theorem postReport_created_spec (hospitals : List IHospital) (b : ReportBody)
    (rep : IPatientReport)
    (hcr : postReport hospitals b = ReportOutcome.created rep) :
    b.hospitalId = some rep.hospitalId ∧ b.rating = some rep.rating ∧
    b.race = some rep.race ∧ b.experienceType = some rep.experienceType ∧
    (∃ c, b.comment = some c ∧ rep.comment = jsTrim c) ∧
    1 ≤ rep.rating ∧ rep.rating ≤ 5 ∧ rep.comment ≠ "" ∧
    rep.race ∈ validRaces ∧ rep.experienceType ∈ validExperienceTypes ∧
    (∃ h ∈ hospitals, h._id = rep.hospitalId) ∧ rep.isAnonymous = true := by
  unfold postReport at hcr
  split at hcr
  · cases hcr
  next hguard =>
    rw [not_not] at hguard
    simp only [Bool.and_eq_true] at hguard
    obtain ⟨⟨⟨⟨hhid, hq⟩, hc⟩, hs⟩, ht⟩ := hguard
    obtain ⟨hhid₁, hhid₂⟩ := truthyStr_spec hhid
    obtain ⟨hq₁, hq₂⟩ := truthyNum_spec hq
    obtain ⟨hc₁, _⟩ := truthyStr_spec hc
    obtain ⟨hs₁, _⟩ := truthyStr_spec hs
    obtain ⟨ht₁, _⟩ := truthyStr_spec ht
    simp only [] at hcr
    split at hcr
    · cases hcr
    next hrange =>
      push_neg at hrange
      split at hcr
      · cases hcr
      next htrim =>
        split at hcr
        · cases hcr
        next hrace =>
          rw [not_not] at hrace
          split at hcr
          · cases hcr
          next hexp =>
            rw [not_not] at hexp
            split at hcr
            · cases hcr
            next hhosp =>
              rw [not_not] at hhosp
              obtain ⟨rfl⟩ := ReportOutcome.created.inj hcr.symm
              refine ⟨hhid₁, hq₁, hs₁, ht₁, ⟨b.comment.getD "", hc₁, rfl⟩,
                hrange.1, hrange.2, htrim, hrace, hexp, ?_, rfl⟩
              obtain ⟨h, hmem, hbeq⟩ := List.any_eq_true.mp hhosp
              exact ⟨h, hmem, by simpa using hbeq⟩

/-- C5 counterexample: a submission whose rating is the non-integer 7/2
(with every other field valid and a known hospital) is accepted and a
report is created, refuting the claim that every submission whose rating
is not an integer in [1, 5] is rejected. -/
theorem postReport_accepts_non_integer :
    postReport [hospA] nonIntegerBody =
      ReportOutcome.created
        { hospitalId := "HOSP_001", rating := sevenHalves,
          comment := "Staff were attentive", race := "Black",
          experienceType := "Compliment", isAnonymous := true } ∧
    sevenHalves.den = 2 := by
  constructor
  · decide
  · rfl

/-- C5 (amended): POST /reports rejects, each with its own descriptive
error outcome and without creating a report, every submission whose rating
is present but outside [1, 5] as a number (integrality is NOT checked, so
a non-integer number inside the range is accepted), whose comment trims to
the empty string, whose race or experienceType is outside the fixed
enumerations, or whose hospitalId matches no hospital; and every created
report carries the submitted values unchanged except for comment trimming,
with the rating a number in [1, 5], a non-empty trimmed comment,
enumerated categories, and an existing hospital. -/
theorem postReport_validates (hospitals : List IHospital) (b : ReportBody) :
    (∀ q, b.rating = some q → q < 1 ∨ 5 < q →
      ∀ rep, postReport hospitals b ≠ ReportOutcome.created rep) ∧
    (∀ c, b.comment = some c → jsTrim c = "" →
      ∀ rep, postReport hospitals b ≠ ReportOutcome.created rep) ∧
    (∀ s, b.race = some s → s ∉ validRaces →
      ∀ rep, postReport hospitals b ≠ ReportOutcome.created rep) ∧
    (∀ s, b.experienceType = some s → s ∉ validExperienceTypes →
      ∀ rep, postReport hospitals b ≠ ReportOutcome.created rep) ∧
    (∀ s, b.hospitalId = some s → (∀ h ∈ hospitals, h._id ≠ s) →
      ∀ rep, postReport hospitals b ≠ ReportOutcome.created rep) ∧
    (∀ rep, postReport hospitals b = ReportOutcome.created rep →
      b.rating = some rep.rating ∧ 1 ≤ rep.rating ∧ rep.rating ≤ 5 ∧
      (∃ c, b.comment = some c ∧ rep.comment = jsTrim c) ∧ rep.comment ≠ "" ∧
      rep.race ∈ validRaces ∧ rep.experienceType ∈ validExperienceTypes ∧
      ∃ h ∈ hospitals, h._id = rep.hospitalId) := by
  refine ⟨?_, ?_, ?_, ?_, ?_, ?_⟩
  · intro q hq hout rep hcr
    obtain ⟨-, hq₁, -, -, -, h1, h5, -⟩ := postReport_created_spec _ _ _ hcr
    rw [hq] at hq₁
    obtain ⟨rfl⟩ := Option.some.inj hq₁
    rcases hout with h | h
    · exact absurd h1 (not_le.mpr h)
    · exact absurd h5 (not_le.mpr h)
  · intro c hc htrim rep hcr
    obtain ⟨-, -, -, -, ⟨c₂, hc₂, hrep⟩, -, -, hne, -⟩ :=
      postReport_created_spec _ _ _ hcr
    rw [hc] at hc₂
    obtain ⟨rfl⟩ := Option.some.inj hc₂
    exact hne (hrep.trans htrim)
  · intro s hs hnot rep hcr
    obtain ⟨-, -, hs₁, -, -, -, -, -, hmem, -⟩ :=
      postReport_created_spec _ _ _ hcr
    rw [hs] at hs₁
    obtain ⟨rfl⟩ := Option.some.inj hs₁
    exact hnot hmem
  · intro s hs hnot rep hcr
    obtain ⟨-, -, -, hs₁, -, -, -, -, -, hmem, -⟩ :=
      postReport_created_spec _ _ _ hcr
    rw [hs] at hs₁
    obtain ⟨rfl⟩ := Option.some.inj hs₁
    exact hnot hmem
  · intro s hs hnone rep hcr
    obtain ⟨hs₁, -, -, -, -, -, -, -, -, -, ⟨h, hmem, hid⟩, -⟩ :=
      postReport_created_spec _ _ _ hcr
    rw [hs] at hs₁
    obtain ⟨rfl⟩ := Option.some.inj hs₁
    exact hnone h hmem hid
  · intro rep hcr
    obtain ⟨-, hq, -, -, hcom, h1, h5, hne, hrace, hexp, hh, -⟩ :=
      postReport_created_spec _ _ _ hcr
    exact ⟨hq, h1, h5, hcom, hne, hrace, hexp, hh⟩

/-- C5 witness: the amended claim applied to a concrete out-of-range
submission, which does not create the sample report. -/
theorem postReport_validates_witness :
    postReport [hospA] highRatingBody ≠ ReportOutcome.created sampleReport :=
  (postReport_validates [hospA] highRatingBody).1 6 rfl
    (Or.inr (by norm_num)) sampleReport

/-- C6: the disparity classifier maps grades to ordinals A 4, B 3, C 2,
D 1; a missing or "N/A" Black or White grade yields not significant; and
for grades drawn from A to D it reports a significant disparity exactly
when the ordinals differ by at least 2, so A versus D is significant and
B versus C is not. -/
theorem hasSignificantDisparity_spec (r : HospitalRating) :
    gradeToNum "A" = 4 ∧ gradeToNum "B" = 3 ∧ gradeToNum "C" = 2 ∧
    gradeToNum "D" = 1 ∧
    ((r.byGroup.Black.map GroupRating.grade = none ∨
      r.byGroup.White.map GroupRating.grade = none ∨
      r.byGroup.Black.map GroupRating.grade = some "N/A" ∨
      r.byGroup.White.map GroupRating.grade = some "N/A") →
      hasSignificantDisparity r = false) ∧
    (∀ gb gw, r.byGroup.Black.map GroupRating.grade = some gb →
      r.byGroup.White.map GroupRating.grade = some gw →
      gb ∈ (["A", "B", "C", "D"] : List String) →
      gw ∈ (["A", "B", "C", "D"] : List String) →
      (hasSignificantDisparity r = true ↔
        2 ≤ ((gradeToNum gb : Int) - (gradeToNum gw : Int)).natAbs)) ∧
    hasSignificantDisparity (mkGraded (some "A") (some "D")) = true ∧
    hasSignificantDisparity (mkGraded (some "B") (some "C")) = false := by
  refine ⟨rfl, rfl, rfl, rfl, fun h => ?_, fun gb gw hb hw hgb hgw => ?_,
    by decide, by decide⟩
  · unfold hasSignificantDisparity
    simp only []
    rcases h with h | h | h | h <;> rw [h] <;> simp [truthyStr]
  · unfold hasSignificantDisparity
    simp only []
    rw [hb, hw]
    fin_cases hgb <;> fin_cases hgw <;> decide

/-- C6 witness: the ordinal criterion evaluated on the concrete A-versus-D
record. -/
theorem hasSignificantDisparity_spec_witness :
    hasSignificantDisparity (mkGraded (some "A") (some "D")) = true ↔
      2 ≤ ((gradeToNum "A" : Int) - (gradeToNum "D" : Int)).natAbs :=
  (hasSignificantDisparity_spec (mkGraded (some "A") (some "D"))).2.2.2.2.2.1
    "A" "D" rfl rfl (by decide) (by decide)

/-- C9 counterexample: location composition is not injective, so filtering
by the value composed from one hospital also returns a record whose
literal city/state pair differs.  With city "Springfield, North" state
"VA" and city "Springfield" state "North, VA", filtering the joined list
by the first composed location returns both records. -/
theorem filterByLocation_not_pairwise :
    hospComma1.city ++ ", " ++ hospComma1.state = "Springfield, North, VA" ∧
    List.map HospitalRating.city
        (filterByLocation (joinRatings [hospComma1, hospComma2] [])
          "Springfield, North, VA") =
      ["Springfield, North", "Springfield"] ∧
    hospComma2.city ≠ hospComma1.city ∧ hospComma2.state ≠ hospComma1.state :=
  ⟨rfl, rfl, by decide, by decide⟩

/-- C9 (amended): filtering the joined list by a location string keeps
exactly the joined records whose composed location is character-for-
character equal to the filter string (case-sensitive, no fuzzy match);
consequently any returned record has its own composed city-comma-state
string equal to the filter value, though the literal (city, state) pair is
not always determined because composition is not injective. -/
theorem filterByLocation_exact (H : List IHospital)
    (R : List ICalculatedRating) (loc : String) (j : HospitalRating) :
    (j ∈ filterByLocation (joinRatings H R) loc ↔
      j ∈ joinRatings H R ∧ j.location = loc) ∧
    (j ∈ filterByLocation (joinRatings H R) loc →
      j.city ++ ", " ++ j.state = loc) := by
  have hloc : ∀ x ∈ joinRatings H R, x.location = x.city ++ ", " ++ x.state := by
    intro x hx
    obtain ⟨h, -, rfl⟩ := List.mem_map.mp hx
    rfl
  constructor
  · simp [filterByLocation, List.mem_filter]
  · intro hj
    obtain ⟨hmem, heq⟩ := List.mem_filter.mp hj
    rw [← hloc j hmem]
    simpa [filterByLocation] using heq

/-- C9 witness: the exactness consequence evaluated on the first comma
hospital. -/
theorem filterByLocation_exact_witness :
    (joinOne [] hospComma1).city ++ ", " ++ (joinOne [] hospComma1).state =
      "Springfield, North, VA" :=
  (filterByLocation_exact [hospComma1, hospComma2] []
    "Springfield, North, VA" (joinOne [] hospComma1)).2 (by decide)

/-- Insertion sort on a numeric key yields a key-sorted list. -/
theorem sortByKey_sorted {α : Type} (key : α → Nat) (l : List α) :
    (sortByKey key l).Sorted (fun a b => key a ≤ key b) := by
  haveI : IsTotal α (fun a b => key a ≤ key b) := ⟨fun a b => Nat.le_total _ _⟩
  haveI : IsTrans α (fun a b => key a ≤ key b) := ⟨fun _ _ _ => Nat.le_trans⟩
  exact List.sorted_insertionSort _ l

/-- Sorting a key-sorted list leaves it unchanged. -/
theorem sortByKey_of_sorted {α : Type} (key : α → Nat) {l : List α}
    (h : l.Sorted (fun a b => key a ≤ key b)) : sortByKey key l = l :=
  h.insertionSort_eq

/-- sortByKey is idempotent. -/
theorem sortByKey_idem {α : Type} (key : α → Nat) (l : List α) :
    sortByKey key (sortByKey key l) = sortByKey key l :=
  sortByKey_of_sorted key (sortByKey_sorted key l)

/-- Inserting an element never changes the sublist of elements at any
other key value, and puts the new element in front of the elements at its
own key value. -/
theorem filter_key_orderedInsert {α : Type} (key : α → Nat) (k : Nat)
    (x : α) (l : List α) :
    (List.orderedInsert (fun a b => key a ≤ key b) x l).filter
        (fun a => key a == k) =
      if key x = k then x :: l.filter (fun a => key a == k)
      else l.filter (fun a => key a == k) := by
  induction l with
  | nil =>
    by_cases hk : key x = k <;>
      simp [List.orderedInsert, List.filter_cons, hk]
  | cons b t ih =>
    simp only [List.orderedInsert]
    by_cases hxb : key x ≤ key b
    · rw [if_pos hxb, List.filter_cons]
      by_cases hk : key x = k
      · rw [if_pos (by simpa using hk), if_pos hk]
      · rw [if_neg (by simpa using hk), if_neg hk]
    · rw [if_neg hxb, List.filter_cons, ih]
      by_cases hk : key x = k
      · have hbk : ¬ key b = k := by
          have hlt : key b < key x := not_le.mp hxb
          omega
        rw [if_neg (by simpa using hbk), if_pos hk, if_pos hk,
          List.filter_cons, if_neg (by simpa using hbk)]
      · rw [if_neg hk, if_neg hk, List.filter_cons]

/-- Stability of sortByKey: the sublist of elements at any one key value
is preserved. -/
theorem filter_key_sortByKey {α : Type} (key : α → Nat) (k : Nat)
    (l : List α) :
    (sortByKey key l).filter (fun a => key a == k) =
      l.filter (fun a => key a == k) := by
  induction l with
  | nil => rfl
  | cons x t ih =>
    show (List.orderedInsert _ x (sortByKey key t)).filter _ = _
    rw [filter_key_orderedInsert]
    by_cases hk : key x = k
    · rw [if_pos hk, ih, List.filter_cons, if_pos (by simpa using hk)]
    · rw [if_neg hk, ih, List.filter_cons, if_neg (by simpa using hk)]

/-- The disparity flag is key 0 of the disparity comparator. -/
theorem disp_flag_eq_key (a : HospitalRating) :
    (dispSortKey a == 0) = hasSignificantDisparity a := by
  by_cases h : hasSignificantDisparity a <;> simp [dispSortKey, h]

/-- The negated disparity flag is key 1 of the disparity comparator. -/
theorem disp_not_flag_eq_key (a : HospitalRating) :
    (dispSortKey a == 1) = !hasSignificantDisparity a := by
  by_cases h : hasSignificantDisparity a <;> simp [dispSortKey, h]

/-- C10: the grade sorts use the key order A, B, C, D, then N/A, then a
missing group grade, then any other grade string, and are stable (the
sublist at each key value is preserved), so sorting an already-sorted list
again yields the same order; and the disparity-first sort places every
flagged record before every non-flagged record while preserving the
relative order inside the flagged records and inside the non-flagged
records. -/
theorem sort_utilities_spec (l : List HospitalRating) (g : String)
    (hg : g ∉ (["A", "B", "C", "D", "N/A", "Z"] : List String)) :
    (blackGradeOrder "A" < blackGradeOrder "B" ∧
     blackGradeOrder "B" < blackGradeOrder "C" ∧
     blackGradeOrder "C" < blackGradeOrder "D" ∧
     blackGradeOrder "D" < blackGradeOrder "N/A" ∧
     (∀ r : HospitalRating, r.byGroup.Black = none →
       blackGradeOrder "N/A" < blackSortKey r) ∧
     blackGradeOrder "N/A" < blackGradeOrder g) ∧
    (sortByBlackGrade (sortByBlackGrade l) = sortByBlackGrade l ∧
     sortByOverallGrade (sortByOverallGrade l) = sortByOverallGrade l ∧
     sortByDisparity (sortByDisparity l) = sortByDisparity l) ∧
    (∀ k, (sortByBlackGrade l).filter (fun a => blackSortKey a == k) =
      l.filter (fun a => blackSortKey a == k)) ∧
    (∀ k, (sortByOverallGrade l).filter (fun a => overallSortKey a == k) =
      l.filter (fun a => overallSortKey a == k)) ∧
    (sortByDisparity l).Pairwise
      (fun a b => hasSignificantDisparity b = true →
        hasSignificantDisparity a = true) ∧
    (sortByDisparity l).filter hasSignificantDisparity =
      l.filter hasSignificantDisparity ∧
    (sortByDisparity l).filter (fun r => !hasSignificantDisparity r) =
      l.filter (fun r => !hasSignificantDisparity r) := by
  simp only [List.mem_cons, List.not_mem_nil, or_false, not_or] at hg
  obtain ⟨h1, h2, h3, h4, h5, h6⟩ := hg
  refine ⟨⟨by decide, by decide, by decide, by decide, fun r hr => ?_, ?_⟩,
    ⟨sortByKey_idem _ l, sortByKey_idem _ l, sortByKey_idem _ l⟩,
    fun k => filter_key_sortByKey _ k l, fun k => filter_key_sortByKey _ k l,
    ?_, ?_, ?_⟩
  · simp [blackSortKey, hr, jsOrString, blackGradeOrder]
  · simp [blackGradeOrder, h1, h2, h3, h4, h5, h6]
  · exact (sortByKey_sorted dispSortKey l).imp (fun {a b} hab hb => by
      have hbk : dispSortKey b = 0 := by simp [dispSortKey, hb]
      have hak : dispSortKey a = 0 := by omega
      by_contra hna
      simp [dispSortKey, hna] at hak)
  · have := filter_key_sortByKey dispSortKey 0 l
    rwa [List.filter_congr (fun a _ => disp_flag_eq_key a),
      List.filter_congr (fun a _ => disp_flag_eq_key a)] at this
  · have := filter_key_sortByKey dispSortKey 1 l
    rwa [List.filter_congr (fun a _ => disp_not_flag_eq_key a),
      List.filter_congr (fun a _ => disp_not_flag_eq_key a)] at this

/-- C10 witness: grade-sort idempotence evaluated on a concrete two-record
list, with "F" as the out-of-table grade. -/
theorem sort_utilities_spec_witness :
    sortByBlackGrade (sortByBlackGrade
        [mkGraded (some "A") (some "D"), mkGraded (some "B") (some "C")]) =
      sortByBlackGrade
        [mkGraded (some "A") (some "D"), mkGraded (some "B") (some "C")] :=
  (sort_utilities_spec
    [mkGraded (some "A") (some "D"), mkGraded (some "B") (some "C")] "F"
    (by decide)).2.1.1

end CareEquity
